import Mathlib

/-!
Verification of ngnjs/chassis-libx (src/driver.js, src/controller.js).

The repository contains two facade classes layered over the NGN framework:
`NGNX.Driver` (driver.js) and `NGNX.Controller` (controller.js).  This file
gives a shallow embedding of the parts of both classes that route events to
the global bus `NGN.BUS`:

* the namespacing helper `Driver.applyNamespace` and the bus-forwarding
  methods built on it (`emit`, `on`, ...),
* `Controller.on`,
* the scoped datastore relay (`scopeStoreEvents` / `addStore` in both files),
* the reference registry (`Driver.createReference`),
* the template render pipeline (`Driver.render` / `adjustedRender` /
  `templateRendered`).

External collaborators (`NGN.BUS`, `NGN.NET.template`, `document`) are
modelled by recording the calls made to them as traces; JavaScript values are
modelled only as far as the embedded code inspects them (typeof checks and
string concatenation).
-/

namespace Chassis

/-- JavaScript values, as far as driver.js / controller.js inspect them.
`arr` doubles as an array-like `arguments` object (what matters for the code
is that it is a single value of typeof object wrapping a list of values);
`entity` models an `NGN.DATA.Entity` instance with representation `obj rid`. -/
inductive JSVal where
  | undef
  | null
  | str (s : String)
  | num (n : Int)
  | fn (id : Nat)
  | obj (id : Nat)
  | arr (elems : List JSVal)
  | entity (rid : Nat)

/-- JavaScript `typeof v === 'string'`. -/
def isStringVal : JSVal → Bool
  | .str _ => true
  | _ => false

/-- JavaScript `typeof v === 'object'`.  Note that `typeof null` and the
typeof of an array are both the string `object` in JavaScript. -/
def typeofObject : JSVal → Bool
  | .null => true
  | .obj _ => true
  | .arr _ => true
  | .entity _ => true
  | _ => false

/-- driver.js line 39: `scope: NGN.const(cfg.namespace || null)`.  A missing
namespace is modelled as the empty string; `||` turns every falsy string
(only the empty one) into `null`, modelled as `none`. -/
def mkScope (ns : String) : Option String :=
  if ns = "" then none else some ns

/-- JavaScript `s.toLowerCase()` (modelled characterwise; the event-position
strings involved are ASCII). -/
def jsToLower (s : String) : String := String.mk (s.data.map Char.toLower)

/-- JavaScript `s.trim()`: strip leading and trailing whitespace. -/
def jsTrim (s : String) : String :=
  String.mk (((s.data.dropWhile Char.isWhitespace).reverse.dropWhile
    Char.isWhitespace).reverse)

/-- One call made to an `NGN.BUS` primitive: the primitive name (`emit`,
`on`, `pool`, ...) and the argument list it received. -/
structure BusCall where
  prim : String
  args : List JSVal

/-- Observable outcome of invoking a Driver/Controller method: the bus calls
made, the `console.warn` messages issued, and the error thrown (if any),
in program order (warnings are issued before any throw). -/
structure BusOutcome where
  busCalls : List BusCall
  warnings : List String
  thrown : Option String

/-- Warning issued by `Driver.applyNamespace` when `NGN.BUS` is missing. -/
def driverNoBusWarning : String :=
  "NGNX.Driver.on(...) will not work because NGN.BUS is not available."

/-- driver.js lines 584-601, `Driver.applyNamespace(args)`.

```js
applyNamespace (args) {
  if (args.length === 0) { return arguments }
  if (typeof args[0] !== 'string') { return arguments }
  if (!NGN.BUS) { console.warn(...); return }
  args[0] = NGN.coalesce(this.scope, '') + args[0]
  return args
}
```

Note the first two early returns yield `arguments` — the arguments of
`applyNamespace` itself, a one-element list holding the caller's original
argument list — not `args`.  The third returns `undefined`, modelled `none`.
The result is the returned argument list (or `none`) plus the warnings. -/
def applyNamespace (busAvailable : Bool) (scope : Option String)
    (args : List JSVal) : Option (List JSVal) × List String :=
  match args with
  | [] => (some [.arr []], [])
  | .str s :: rest =>
      if busAvailable then
        (some (.str (scope.getD "" ++ s) :: rest), [])
      else
        (none, [driverNoBusWarning])
  | a :: rest => (some [.arr (a :: rest)], [])

/-- The shared pattern of `Driver.emit`, `Driver.on`, `Driver.once`,
`forward`, `delayEmit`, `threshold`, `thresholdOnce` and `attach`:
`NGN.BUS.<prim>.apply(NGN.BUS, this.applyNamespace(arguments))`.
JavaScript evaluates the callee member chain `NGN.BUS.<prim>.apply` before
the argument expressions, so when `NGN.BUS` is missing the property access
throws a `TypeError` immediately and `applyNamespace` never runs — its
bus-missing warning (driver.js line 594) is unreachable from these
callers.  When the bus is available, the primitive is called once with the
list `applyNamespace` returns. -/
def busApply (prim : String) (busAvailable : Bool) (scope : Option String)
    (args : List JSVal) : BusOutcome :=
  if busAvailable then
    let r := applyNamespace busAvailable scope args
    match r.1 with
    | some l => ⟨[⟨prim, l⟩], r.2, none⟩
    | none => ⟨[], r.2, none⟩
  else
    ⟨[], [], some "TypeError"⟩

/-- driver.js lines 675-679, `Driver.emit()`. -/
def driverEmit (busAvailable : Bool) (scope : Option String)
    (args : List JSVal) : BusOutcome :=
  busApply "emit" busAvailable scope args

/-- Deprecation warning issued by `Driver.on` / `Driver.once` for the event
name `template.render` (driver.js lines 618-620). -/
def deprecationWarning : String :=
  "DEPRECATION NOTICE: the template.render event is now template.rendered"

/-- driver.js lines 734-744, `Driver.pool(extra, data)`: the scope argument
passed to `NGN.BUS.pool` is `(NGN.coalesce(this.scope, '') + extra).trim()`,
replaced by `null` when empty. -/
def driverPoolScope (scope : Option String) (extra : String) : JSVal :=
  let s := jsTrim ((scope.getD "") ++ extra)
  if s.length > 0 then .str s else .null

/-- driver.js lines 611-624, `Driver.on()`.

```js
on () {
  if (arguments.length > 0) {
    if (typeof arguments[0] === 'object') { this.pool(...arguments); return }
    if (arguments[0] === 'template.render') { console.warn(DEPRECATION) }
  }
  NGN.BUS.on.apply(NGN.BUS, this.applyNamespace(arguments))
}
```

An object first argument is routed to `pool`, which sets `data` to that
object (dropping any further arguments) and calls `NGN.BUS.pool` — throwing
a `TypeError` when the bus is missing, since `pool` performs no bus check. -/
def driverOn (busAvailable : Bool) (scope : Option String)
    (args : List JSVal) : BusOutcome :=
  match args with
  | a :: rest =>
      if typeofObject a then
        if busAvailable then
          ⟨[⟨"pool", [driverPoolScope scope "", a]⟩], [], none⟩
        else
          ⟨[], [], some "TypeError"⟩
      else
        let w : List String :=
          match a with
          | .str s => if s = "template.render" then [deprecationWarning] else []
          | _ => []
        let o := busApply "on" busAvailable scope (a :: rest)
        ⟨o.busCalls, w ++ o.warnings, o.thrown⟩
  | [] => busApply "on" busAvailable scope []

/-- controller.js line 114: the `events` array is created empty in the
constructor, and nothing in the repository ever adds to it. -/
def controllerEvents : List String := []

/-- controller.js lines 238-248, `Controller.on(topic, handler)`:

```js
on (topic, handler) {
  if (!NGN.BUS) { console.warn(...); return }
  if (this.events.indexOf(topic) >= 0) { NGN.BUS.on(topic, handler) }
  else { console.warn(topic + ' is not a supported event for this Controller.') }
}
```

No namespacing is applied to `topic`. -/
def controllerOn (busAvailable : Bool) (events : List String)
    (topic : String) (handler : JSVal) : BusOutcome :=
  if busAvailable = false then
    ⟨[], ["NGNX.Controller.on(" ++ topic ++
          ", ...) will not work because NGN.BUS is not available."], none⟩
  else if topic ∈ events then
    ⟨[⟨"on", [.str topic, handler]⟩], [], none⟩
  else
    ⟨[], [topic ++ " is not a supported event for this Controller."], none⟩

/-- driver.js lines 188-200: the `dataevents` list of the Driver. -/
def driverDataevents : List String :=
  ["record.create", "record.delete", "record.duplicate", "record.update",
   "record.expired", "record.restored", "record.purged",
   "index.create", "index.delete", "filter.create", "filter.remove"]

/-- controller.js lines 121-128: the `dataevents` list of the Controller. -/
def controllerDataevents : List String :=
  ["record.create", "record.delete", "index.create", "index.delete",
   "record.duplicate", "record.update"]

/-- A listener that `scopeStoreEvents` attached to a store object via
`datastores[name].on(eventKind, handler)`.  The handler closes over the
driver scope, the store reference name, the separator and the event kind;
`emitName` is the bus event name it will emit when the store fires. -/
structure StoreHandler where
  storeId : Nat
  eventKind : String
  emitName : String
deriving DecidableEq, Repr

/-- State of a Driver or Controller facade, as far as the store relay is
concerned: the configured scope, the `datastores` registry (store objects
modelled by numeric identities), the listeners attached to store objects,
the `NGN.BUS.off(name)` calls made so far, and the warnings logged. -/
structure RelayState where
  scope : Option String
  stores : List (String × Nat)
  handlers : List StoreHandler
  busOffs : List String
  warnings : List String
deriving DecidableEq, Repr

/-- driver.js line 546 area / line 565: the separator characters the Driver
recognizes at the end of a namespace: space, `-`, `.`, `_`, `+`, `:`. -/
def recognizedSeps : List String := [" ", "-", ".", "_", "+", ":"]

/-- driver.js line 559: `this.scope.substr(this.scope.length - 1, 1)`, the
last character of the (non-null) scope, as a one-character string. -/
def sepOf (scope : String) : String := scope.takeRight 1

/-- driver.js lines 565-569: the event name the Driver relay handler emits
for scope `scope`, store reference `name` and store event kind `e`. -/
def driverEmitName (scope name e : String) : String :=
  if sepOf scope ∈ recognizedSeps then scope ++ name ++ sepOf scope ++ e
  else scope ++ name ++ e

/-- JavaScript object assignment `m[k] = v` on a string-keyed map. -/
def setKey (l : List (String × Nat)) (k : String) (v : Nat) :
    List (String × Nat) :=
  if l.any (fun p => p.1 = k) then
    l.map (fun p => if p.1 = k then (k, v) else p)
  else l ++ [(k, v)]

/-- driver.js lines 553-577, `Driver.scopeStoreEvents(name, suppress)`:
when the scope is non-null, attach one handler per `dataevents` entry to the
store registered under `name`; the handler emits
`scope + name + sep + e` (or `scope + name + e` when the last scope
character is not a recognized separator) with the firing arguments as
payload.  With a null scope, only a warning is logged (unless suppressed).
Callers always register the store under `name` before calling this. -/
def driverScopeStoreEvents (st : RelayState) (name : String)
    (suppress : Bool) : RelayState :=
  match st.scope with
  | some ns =>
      match st.stores.lookup name with
      | some sid =>
          { st with handlers := st.handlers ++
              driverDataevents.map (fun e => ⟨sid, e, driverEmitName ns name e⟩) }
      | none => st
  | none =>
      if suppress then st
      else { st with warnings := st.warnings ++
              ["Driver.scopeStoreEvents called without a defined namespace."] }

/-- driver.js lines 487-501, `Driver.addStore(name, store)`: when a store is
already registered under `name` (and the scope is non-null) the Driver calls
`NGN.BUS.off(this.scope + e)` for every `dataevents` entry and logs a
warning; it then overwrites `datastores[name]` and calls
`scopeStoreEvents(name)`.  Note the `off` calls remove bus listeners for the
unqualified names; they do not touch the handlers previously attached to the
old store object. -/
def driverAddStore (st : RelayState) (name : String) (sid : Nat) : RelayState :=
  let st1 :=
    if (st.stores.lookup name).isSome then
      let st' :=
        match st.scope with
        | some ns => { st with busOffs := st.busOffs ++
            driverDataevents.map (fun e => ns ++ e) }
        | none => st
      { st' with warnings := st'.warnings ++
          ["Driver already had a reference to " ++ name ++
           ", which has been overwritten."] }
    else st
  let st2 := { st1 with stores := setKey st1.stores name sid }
  driverScopeStoreEvents st2 name false

/-- driver.js lines 29-258 (constructor), store part: `scope` is
`cfg.namespace || null`; when it is non-null, `scopeStoreEvents` runs for
every configured store. -/
def driverInit (ns : String) (storesCfg : List (String × Nat)) : RelayState :=
  let st0 : RelayState := ⟨mkScope ns, storesCfg, [], [], []⟩
  if (mkScope ns).isSome then
    storesCfg.foldl (fun st p => driverScopeStoreEvents st p.1 false) st0
  else st0

/-- Firing store event `e` with arguments `payload` on store object `sid`:
every handler attached to that store object for that event kind runs, in
attach order.  The Driver handler (driver.js lines 562-572) unshifts its
event name onto the firing arguments and applies `NGN.BUS.emit`. -/
def fireDriverStoreEvent (st : RelayState) (sid : Nat) (e : String)
    (payload : List JSVal) : List BusCall :=
  (st.handlers.filter (fun h => h.storeId == sid && h.eventKind == e)).map
    (fun h => ⟨"emit", .str h.emitName :: payload⟩)

/-- controller.js lines 192-204, `Controller.scopeStoreEvents(name,
suppress)`: like the Driver variant but the handler emits the unqualified
name `scope + e` (no store qualification and no separator logic). -/
def controllerScopeStoreEvents (st : RelayState) (name : String)
    (suppress : Bool) : RelayState :=
  match st.scope with
  | some ns =>
      match st.stores.lookup name with
      | some sid =>
          { st with handlers := st.handlers ++
              controllerDataevents.map (fun e => ⟨sid, e, ns ++ e⟩) }
      | none => st
  | none =>
      if suppress then st
      else { st with warnings := st.warnings ++
              ["Controller.scopeStoreEvents called without a defined scope."] }

/-- controller.js lines 168-181, `Controller.addStore(name, store)`. -/
def controllerAddStore (st : RelayState) (name : String) (sid : Nat) :
    RelayState :=
  let st1 :=
    if (st.stores.lookup name).isSome then
      let st' :=
        match st.scope with
        | some ns => { st with busOffs := st.busOffs ++
            controllerDataevents.map (fun e => ns ++ e) }
        | none => st
      { st' with warnings := st'.warnings ++
          ["Controller already had a reference to " ++ name ++
           ", which has been overwritten."] }
    else st
  let st2 := { st1 with stores := setKey st1.stores name sid }
  controllerScopeStoreEvents st2 name false

/-- controller.js constructor, store part: `scope` is `cfg.scope || null`;
when non-null, `scopeStoreEvents` runs for every configured store. -/
def controllerInit (ns : String) (storesCfg : List (String × Nat)) :
    RelayState :=
  let st0 : RelayState := ⟨mkScope ns, storesCfg, [], [], []⟩
  if (mkScope ns).isSome then
    storesCfg.foldl (fun st p => controllerScopeStoreEvents st p.1 false) st0
  else st0

/-- Firing store event `e` on store object `sid` in the Controller: the
handler (controller.js lines 197-199) has signature `function (model)` and
emits `NGN.BUS.emit(scope + e, model)` — only the first firing argument is
relayed. -/
def fireControllerStoreEvent (st : RelayState) (sid : Nat) (e : String)
    (model : JSVal) : List BusCall :=
  (st.handlers.filter (fun h => h.storeId == sid && h.eventKind == e)).map
    (fun h => ⟨"emit", [.str h.emitName, model]⟩)

/-- driver.js lines 299-314, `Driver.createReference(name, selector)`:

```js
createReference (name, selector) {
  if (!selector) { throw new Error('Invalid selector specified for new ' + name + ' reference.') }
  let originalName = name
  name = this.id + '-' + name
  if (NGNX.REF[name] === undefined || NGNX.REF[name] === null) {
    NGNX.REF.create(name, selector)
    Object.defineProperty(this.ref, originalName, ...)
  }
}
```

The registry maps full reference names to selectors.  A falsy selector (the
empty string) throws; when the full name is already registered nothing at
all happens — no warning is logged anywhere in this method.  The result is
the updated registry and the warnings logged (always none on success). -/
def createReference (id : String) (refs : List (String × String))
    (name selector : String) :
    Except String (List (String × String) × List String) :=
  if selector = "" then
    .error ("Invalid selector specified for new " ++ name ++ " reference.")
  else
    let fullName := id ++ "-" ++ name
    if (refs.lookup fullName).isNone then
      .ok (refs ++ [(fullName, selector)], [])
    else
      .ok (refs, [])

/-- An external call made by the render pipeline: an `NGN.NET.template`
fetch, a `document.querySelector` lookup, a DOM insertion via
`insertAdjacentHTML`/`insertAdjacentElement` at a position, or an
`NGN.BUS.emit` (completion events; their element payload is not modelled,
since no claim inspects it). -/
inductive ExtCall where
  | netTemplate (src : String) (data : JSVal)
  | querySel (sel : String)
  | insertAdj (position : String)
  | busEmit (name : String)

/-- Whether an external call is a bus emission. -/
def isBusEmit : ExtCall → Bool
  | .busEmit _ => true
  | _ => false

/-- Outcome of a render call: the external calls made (in order, and
assuming the template fetch completes and invokes its callback), warnings
logged, and the error thrown, if any. -/
structure RenderResult where
  calls : List ExtCall
  warnings : List String
  thrown : Option String

/-- driver.js lines 382-384: `if (data instanceof NGN.DATA.Entity) data =
data.representation` — an entity is replaced by its representation object. -/
def entityRep : JSVal → JSVal
  | .entity r => .obj r
  | d => d

/-- JavaScript string concatenation `a + b` where `a` is the scope (a string
or `null`): `null + 'x'` coerces `null` to the string `null`. -/
def jsAdd (scope : Option String) (s : String) : String :=
  match scope with
  | none => "null" ++ s
  | some t => t ++ s

/-- driver.js lines 460-464, `Driver.templateRendered(element)`: three bus
emissions — `this.scope + 'template.rendered'` (JavaScript `+`, so a null
scope yields `nulltemplate.rendered`), then the global `template.rendered`,
then the deprecated global `template.render`. -/
def templateRendered (scope : Option String) : List ExtCall :=
  [.busEmit (jsAdd scope "template.rendered"),
   .busEmit "template.rendered",
   .busEmit "template.render"]

/-- driver.js lines 423-458, `Driver.adjustedRender(parent, element,
position, callback)`: positions other than `beforebegin`, `afterbegin`,
`afterend` (after trim/lowercase) are replaced by `beforeend`; the content
is inserted at that position and `templateRendered` runs (each switch branch
calls it, only with a different element argument). -/
def adjustedRender (scope : Option String) (position : String) :
    List ExtCall :=
  .insertAdj
    (if jsToLower (jsTrim position) ∈ ["beforebegin", "afterbegin", "afterend"]
     then position
     else "beforeend")
    :: templateRendered scope

/-- driver.js line 409: `position = (position || 'beforeend').toLowerCase()`
— a missing or empty (falsy) position argument defaults to `beforeend`. -/
def renderPosition (position : Option String) : String :=
  jsToLower (match position with
             | none => "beforeend"
             | some q => if q = "" then "beforeend" else q)

/-- The parent argument of `Driver.render`: a callback function, a selector
string, or a DOM element (modelled by a numeric identity). -/
inductive ParentArg where
  | fnCallback
  | sel (s : String)
  | elem (id : Nat)

/-- driver.js lines 376-421, `Driver.render(name, data, parent, position,
callback)`:

1. an unregistered template name throws immediately;
2. an `NGN.DATA.Entity` data value is replaced by its representation;
3. data whose JavaScript typeof is not `object` throws (note `typeof null`
   and the typeof of an array are `object`, so those values pass);
4. a function parent receives the fetched template via callback;
5. a string parent is resolved via `document.querySelector` (the oracle
   `dom`); an unresolvable selector logs a warning and aborts;
6. otherwise `position || 'beforeend'` is lowercased, the template is
   fetched and `adjustedRender` runs (both the `NGN.DOM` branch and the
   plain branch of the fetch callback end in the same `adjustedRender`
   call). -/
def render (scope : Option String) (templates : List (String × String))
    (name : String) (data : JSVal) (parent : ParentArg)
    (position : Option String) (dom : String → Option Nat) : RenderResult :=
  match templates.lookup name with
  | none =>
      ⟨[], [], some ("The Driver does not have a reference to a template called "
                     ++ jsTrim name ++ ".")⟩
  | some src =>
      let data := entityRep data
      if !typeofObject data then
        ⟨[], [], some ("The data provided to the renderer could not be " ++
                       "processed because it is not a key/value object.")⟩
      else
        match parent with
        | .fnCallback => ⟨[.netTemplate src data], [], none⟩
        | .sel s =>
            match dom s with
            | none =>
                ⟨[.querySel s],
                 [s ++ " is not a valid selector or the referenced parent " ++
                  "DOM element could not be found."], none⟩
            | some _ =>
                ⟨.querySel s :: .netTemplate src data ::
                   adjustedRender scope (renderPosition position), [], none⟩
        | .elem _ =>
            ⟨.netTemplate src data ::
               adjustedRender scope (renderPosition position), [], none⟩

/-! ### Helper lemmas -/

/-- Filtering the handlers attached for kinds in `l` keeps none of them when
the queried kind is not in `l`. -/
theorem filter_attached_not_mem (sid : Nat) (f : String → StoreHandler)
    (hk : ∀ x, (f x).eventKind = x) :
    ∀ (l : List String) (e : String), e ∉ l →
      (l.map f).filter (fun h => h.storeId == sid && h.eventKind == e) = [] := by
  intro l
  induction l with
  | nil => intro e _; rfl
  | cons x xs ih =>
      intro e he
      have hxe : x ≠ e := fun h => he (h ▸ List.mem_cons_self x xs)
      have hrest : e ∉ xs := fun h => he (List.mem_cons_of_mem x h)
      simp only [List.map_cons, List.filter_cons]
      rw [ih e hrest]
      have : ((f x).storeId == sid && (f x).eventKind == e) = false := by
        have : ((f x).eventKind == e) = false := by
          simp [hk x, hxe]
        simp [this]
      simp [this]

/-- Filtering the handlers attached for a duplicate-free list of kinds that
contains the queried kind yields exactly the one handler for that kind. -/
theorem filter_attached_mem (sid : Nat) (f : String → StoreHandler)
    (hk : ∀ x, (f x).eventKind = x) (hs : ∀ x, (f x).storeId = sid) :
    ∀ (l : List String) (e : String), l.Nodup → e ∈ l →
      (l.map f).filter (fun h => h.storeId == sid && h.eventKind == e) = [f e] := by
  intro l
  induction l with
  | nil => intro e _ he; cases he
  | cons x xs ih =>
      intro e hnd he
      have hnd' := List.nodup_cons.mp hnd
      simp only [List.map_cons, List.filter_cons]
      rcases List.mem_cons.mp he with rfl | hmem
      · have : ((f e).storeId == sid && (f e).eventKind == e) = true := by
          simp [hk e, hs e]
        rw [this]
        simp [filter_attached_not_mem sid f hk xs e hnd'.1]
      · have hxe : x ≠ e := fun h => hnd'.1 (h ▸ hmem)
        have : ((f x).storeId == sid && (f x).eventKind == e) = false := by
          have : ((f x).eventKind == e) = false := by simp [hk x, hxe]
          simp [this]
        rw [this]
        simp [ih e hnd'.2 hmem]

/-! ### Claim theorems -/

/-- C2: the claim says firing a lifecycle event kind on a registered store
in a namespaced facade yields two bus emissions, an unqualified `N+K` and a
store-qualified `N+S+C+K`.  The code emits only one per variant: the Driver
(namespace `shop.`, store `cart`, kind `record.create`) emits exactly the
store-qualified `shop.cart.record.create`, never the unqualified
`shop.record.create`; the Controller emits exactly the unqualified
`shop.record.create`.  This contradicts the spec example (which expects
both) and the Driver's own doc comment (driver.js lines 530-541), which
documents handlers on both `myscope.record.create` and
`myscope.a.record.create`. -/
theorem store_relay_emits_exactly_one_event :
    fireDriverStoreEvent (driverInit "shop." [("cart", 1)]) 1 "record.create"
        [.obj 7]
      = [⟨"emit", [.str "shop.cart.record.create", .obj 7]⟩]
    ∧ (fireDriverStoreEvent (driverInit "shop." [("cart", 1)]) 1
        "record.create" [.obj 7]).length = 1
    ∧ ((fireDriverStoreEvent (driverInit "shop." [("cart", 1)]) 1
        "record.create" [.obj 7]).map (fun c => c.args.head?))
        ≠ [some (.str "shop.record.create"), some (.str "shop.cart.record.create")]
    ∧ fireControllerStoreEvent (controllerInit "shop." [("cart", 1)]) 1
        "record.create" (.obj 7)
      = [⟨"emit", [.str "shop.record.create", .obj 7]⟩] := by
  refine ⟨rfl, rfl, ?_, rfl⟩
  have hv : (fireDriverStoreEvent (driverInit "shop." [("cart", 1)]) 1
      "record.create" [.obj 7]).map (fun c => c.args.head?)
      = [some (JSVal.str "shop.cart.record.create")] := rfl
  rw [hv]
  intro h
  simpa using congrArg List.length h

/-- C3: the claim says overwriting a store registration detaches all
listeners previously attached for that name, so that firing a lifecycle
event on the old store object afterwards produces no bus emission.  In the
code, `addStore` logs the warning and calls `NGN.BUS.off(scope + e)` for the
unqualified names, but those calls remove bus subscribers, not the relay
handlers attached to the old store object via `store.on(...)`; firing
`record.create` on the old store object (identity 1) after the overwrite
still emits `shop.cart.record.create` on the bus. -/
theorem old_store_still_relays_after_overwrite :
    (driverAddStore (driverInit "shop." [("cart", 1)]) "cart" 2).warnings
      = ["Driver already had a reference to cart, which has been overwritten."]
    ∧ (driverAddStore (driverInit "shop." [("cart", 1)]) "cart" 2).busOffs
      = driverDataevents.map (fun e => "shop." ++ e)
    ∧ fireDriverStoreEvent
        (driverAddStore (driverInit "shop." [("cart", 1)]) "cart" 2) 1
        "record.create" [.obj 7]
      = [⟨"emit", [.str "shop.cart.record.create", .obj 7]⟩] :=
  ⟨rfl, rfl, rfl⟩

/-- C4: the Driver store-relay event name is
`namespace ++ storeName ++ separator ++ eventKind` where the separator is
the last character of the namespace when that character is one of space,
`-`, `.`, `_`, `+`, `:`, and no separator is inserted otherwise — proved
through the whole attach-and-fire pipeline for every non-empty namespace,
store name, supported event kind and payload. -/
theorem store_relay_separator_rule (ns name e : String) (sid : Nat)
    (payload : List JSVal) (hns : ns ≠ "") (he : e ∈ driverDataevents) :
    fireDriverStoreEvent (driverInit ns [(name, sid)]) sid e payload
      = [⟨"emit", .str (if ns.takeRight 1 ∈ [" ", "-", ".", "_", "+", ":"]
            then ns ++ name ++ ns.takeRight 1 ++ e
            else ns ++ name ++ e) :: payload⟩] := by
  have hscope : mkScope ns = some ns := by simp [mkScope, hns]
  have hinit : (driverInit ns [(name, sid)]).handlers
      = driverDataevents.map
          (fun e' => ⟨sid, e', driverEmitName ns name e'⟩) := by
    simp [driverInit, hscope, driverScopeStoreEvents, List.lookup]
  unfold fireDriverStoreEvent
  rw [hinit,
    filter_attached_mem sid (fun e' => ⟨sid, e', driverEmitName ns name e'⟩)
      (fun _ => rfl) (fun _ => rfl) driverDataevents e (by decide) he]
  simp [driverEmitName, sepOf, recognizedSeps]

/-- Witness for `store_relay_separator_rule` at namespace `shop.` (which
ends in the recognized separator `.`), store `cart`, kind `record.create`. -/
theorem store_relay_separator_rule_witness :
    fireDriverStoreEvent (driverInit "shop." [("cart", 1)]) 1 "record.create" []
      = [⟨"emit", [.str "shop.cart.record.create"]⟩] :=
  (store_relay_separator_rule "shop." "cart" "record.create" 1 []
    (by decide) (by decide)).trans (by
      rw [if_pos (by decide :
        "shop.".takeRight 1 ∈ [" ", "-", ".", "_", "+", ":"])]
      exact congrArg (fun s => [BusCall.mk "emit" [JSVal.str s]]) (by decide))

/-- C1 (counterexample): with no namespace configured, calling
`Controller.on(click, fn)` does not produce exactly one bus subscription
named `click` — it produces none, because `Controller.on` only forwards
topics contained in the `events` array, which the constructor creates empty
and nothing ever extends. -/
theorem controller_on_click_makes_no_bus_call :
    (controllerOn true controllerEvents "click" (.fn 0)).busCalls.length ≠ 1 := by
  decide

/-- C1 (amended): namespaced emission/subscription holds for the Driver —
`emit`/`on` with a string event name `E` make exactly one bus call named
`N ++ E` under configured namespace `N`, and named `E` verbatim when no
namespace is configured.  The Controller's `on`, by contrast, applies no
namespace at all: it subscribes to the topic verbatim when the topic is in
its supported-events list, and otherwise makes no bus call and logs a
warning. -/
theorem facade_event_namespacing :
    (∀ (ns E : String) (rest : List JSVal), ns ≠ "" →
        driverEmit true (mkScope ns) (.str E :: rest)
          = ⟨[⟨"emit", .str (ns ++ E) :: rest⟩], [], none⟩)
  ∧ (∀ (E : String) (rest : List JSVal),
        driverEmit true (mkScope "") (.str E :: rest)
          = ⟨[⟨"emit", .str E :: rest⟩], [], none⟩)
  ∧ (∀ (ns E : String) (rest : List JSVal), ns ≠ "" →
        (driverOn true (mkScope ns) (.str E :: rest)).busCalls
          = [⟨"on", .str (ns ++ E) :: rest⟩])
  ∧ (∀ (E : String) (rest : List JSVal),
        (driverOn true (mkScope "") (.str E :: rest)).busCalls
          = [⟨"on", .str E :: rest⟩])
  ∧ (∀ (events : List String) (topic : String) (handler : JSVal),
        topic ∈ events →
        (controllerOn true events topic handler).busCalls
          = [⟨"on", [.str topic, handler]⟩])
  ∧ (∀ (events : List String) (topic : String) (handler : JSVal),
        topic ∉ events →
        (controllerOn true events topic handler).busCalls = []
        ∧ (controllerOn true events topic handler).warnings ≠ []) := by
  refine ⟨?_, ?_, ?_, ?_, ?_, ?_⟩
  · intro ns E rest h
    simp [driverEmit, busApply, applyNamespace, mkScope, h]
  · intro E rest
    simp [driverEmit, busApply, applyNamespace, mkScope]
  · intro ns E rest h
    simp [driverOn, typeofObject, busApply, applyNamespace, mkScope, h]
  · intro E rest
    simp [driverOn, typeofObject, busApply, applyNamespace, mkScope]
  · intro events topic handler h
    simp [controllerOn, h]
  · intro events topic handler h
    simp [controllerOn, h]

/-- Witness for `facade_event_namespacing`: namespace `shop.` and event
`go` give the bus call `shop.go`, a supported Controller topic is forwarded
verbatim, and an unsupported one produces no bus call. -/
theorem facade_event_namespacing_witness :
    driverEmit true (mkScope "shop.") [.str "go"]
      = ⟨[⟨"emit", [.str "shop.go"]⟩], [], none⟩
    ∧ (controllerOn true ["go"] "go" (.fn 0)).busCalls
      = [⟨"on", [.str "go", .fn 0]⟩]
    ∧ (controllerOn true controllerEvents "click" (.fn 0)).busCalls = [] :=
  ⟨facade_event_namespacing.1 "shop." "go" [] (by decide),
   facade_event_namespacing.2.2.2.2.1 ["go"] "go" (.fn 0) (by decide),
   (facade_event_namespacing.2.2.2.2.2 controllerEvents "click" (.fn 0)
     (by decide)).1⟩

/-- C5: the claim says a namespaced Driver method whose first argument is
not a string (or which receives no arguments) forwards the original
argument list unmodified to the bus primitive.  The code instead returns
`arguments` — the argument object of `applyNamespace` itself — so the bus
primitive receives a single argument wrapping the original list:
`Driver.emit(42, x)` calls `NGN.BUS.emit` with the one wrapped argument, and
`Driver.emit()` calls it with one (empty) wrapped argument instead of none. -/
theorem non_string_call_forwarded_wrapped :
    driverEmit true none [.num 42, .str "x"]
      = ⟨[⟨"emit", [.arr [.num 42, .str "x"]]⟩], [], none⟩
    ∧ [JSVal.arr [.num 42, .str "x"]] ≠ [JSVal.num 42, JSVal.str "x"]
    ∧ driverEmit true none [] = ⟨[⟨"emit", [.arr []]⟩], [], none⟩ := by
  refine ⟨rfl, ?_, rfl⟩
  intro h
  simpa using congrArg List.length h

/-- C7: the claim says a handler registration while the bus is unavailable
is a warn-and-return no-op that does not throw.  That is true of
`Controller.on` (it checks `!NGN.BUS` first and returns after warning), but
`Driver.on` evaluates the callee `NGN.BUS.on` before its argument
expression `this.applyNamespace(arguments)`, so with the bus missing it
throws a `TypeError` at once: no bus call, no warning (the graceful
bus-missing guard inside `applyNamespace` is unreachable dead code), and an
exception where the claim requires none. -/
theorem bus_unavailable_driver_throws :
    driverOn false none [.str "click", .fn 0] = ⟨[], [], some "TypeError"⟩
    ∧ controllerOn false controllerEvents "click" (.fn 0)
      = ⟨[], ["NGNX.Controller.on(click, ...) will not work because " ++
              "NGN.BUS is not available."], none⟩ :=
  ⟨rfl, rfl⟩

/-- C8: the claim says a second registration of the same reference name
leaves the originally resolved selector unchanged and logs a warning.  The
first half holds — `createReference` skips the `NGNX.REF.create` call when
the (id-qualified) name is already present — but no warning is logged
anywhere in `createReference`: the duplicate is ignored silently, although
the controller.js doc comment (lines 74-76) promises a console warning. -/
theorem duplicate_reference_original_wins_no_warning :
    createReference "app" [] "button" "body > button"
      = .ok ([("app-button", "body > button")], [])
    ∧ createReference "app" [("app-button", "body > button")] "button"
        "div > button"
      = .ok ([("app-button", "body > button")], []) :=
  ⟨rfl, rfl⟩

/-- The default position pipeline: no position argument yields
`beforeend`, which `adjustedRender` keeps (it is not among `beforebegin`,
`afterbegin`, `afterend`). -/
theorem adjustedRender_default (scope : Option String) :
    adjustedRender scope (renderPosition none)
      = .insertAdj "beforeend" :: templateRendered scope := by
  unfold adjustedRender
  rw [if_neg (by decide : ¬ (jsToLower (jsTrim (renderPosition none))
    ∈ ["beforebegin", "afterbegin", "afterend"]))]

/-- C6 (counterexample): the claim says render throws before any external
call for every data argument that is not a key/value object.  `null` is not
a key/value object, yet `typeof null` is the string `object` in JavaScript,
so `render` with a registered template and `null` data does not throw: it
proceeds to call `NGN.NET.template` with the `null` data. -/
theorem render_null_data_not_rejected :
    (render (some "shop.") [("view", "view.html")] "view" .null (.elem 0) none
        (fun _ => none)).thrown = none
    ∧ (render (some "shop.") [("view", "view.html")] "view" .null (.elem 0)
        none (fun _ => none)).calls.head?
      = some (.netTemplate "view.html" .null) :=
  ⟨rfl, rfl⟩

/-- C6 (amended): render called with an unregistered template name throws a
descriptive error before any external call; render called with data whose
JavaScript typeof (after substituting an `NGN.DATA.Entity` by its
representation) is not `object` likewise throws before any external call.
Values of typeof `object` — including `null` and arrays, which are not
key/value objects — are not rejected. -/
theorem render_guard_throws_before_external_calls :
    (∀ (scope : Option String) (templates : List (String × String))
        (name : String) (data : JSVal) (parent : ParentArg)
        (position : Option String) (dom : String → Option Nat),
        templates.lookup name = none →
        (render scope templates name data parent position dom).calls = []
        ∧ (render scope templates name data parent position dom).thrown
          = some ("The Driver does not have a reference to a template called "
                  ++ jsTrim name ++ "."))
  ∧ (∀ (scope : Option String) (templates : List (String × String))
        (name src : String) (data : JSVal) (parent : ParentArg)
        (position : Option String) (dom : String → Option Nat),
        templates.lookup name = some src →
        typeofObject (entityRep data) = false →
        (render scope templates name data parent position dom).calls = []
        ∧ (render scope templates name data parent position dom).thrown
          = some ("The data provided to the renderer could not be " ++
                  "processed because it is not a key/value object.")) := by
  constructor
  · intro scope templates name data parent position dom h
    constructor <;> simp [render, h]
  · intro scope templates name src data parent position dom h1 h2
    constructor <;> simp [render, h1, h2]

/-- Witness for `render_guard_throws_before_external_calls`: an empty
template registry with name `missing`, and a registered template with the
string data `oops` (typeof `string`). -/
theorem render_guard_witness :
    (render none [] "missing" (.obj 0) .fnCallback none (fun _ => none)).calls
      = []
    ∧ (render none [("view", "view.html")] "view" (.str "oops") .fnCallback
        none (fun _ => none)).thrown
      = some ("The data provided to the renderer could not be " ++
              "processed because it is not a key/value object.") :=
  ⟨(render_guard_throws_before_external_calls.1 none [] "missing" (.obj 0)
      .fnCallback none (fun _ => none) rfl).1,
   (render_guard_throws_before_external_calls.2 none [("view", "view.html")]
      "view" "view.html" (.str "oops") .fnCallback none (fun _ => none) rfl
      rfl).2⟩

/-- C9: a successful render with a parent and no explicit position inserts
the content at `beforeend` (as the last child of the parent) and emits
exactly three completion events, in order: the namespaced
`template.rendered`, the global `template.rendered` and the deprecated
global `template.render` alias.  Proved both for an element parent and for
a selector parent that resolves. -/
theorem render_default_position_three_events (ns src name : String)
    (templates : List (String × String)) (data : JSVal) (pid : Nat)
    (dom : String → Option Nat)
    (h1 : templates.lookup name = some src)
    (h2 : typeofObject (entityRep data) = true) :
    render (some ns) templates name data (.elem pid) none dom
      = ⟨[.netTemplate src (entityRep data), .insertAdj "beforeend",
          .busEmit (ns ++ "template.rendered"), .busEmit "template.rendered",
          .busEmit "template.render"], [], none⟩
    ∧ ((render (some ns) templates name data (.elem pid) none dom).calls.filter
        isBusEmit).length = 3
    ∧ (∀ s, dom s = some pid →
        render (some ns) templates name data (.sel s) none dom
          = ⟨[.querySel s, .netTemplate src (entityRep data),
              .insertAdj "beforeend",
              .busEmit (ns ++ "template.rendered"),
              .busEmit "template.rendered", .busEmit "template.render"],
             [], none⟩) := by
  have hmain :
      render (some ns) templates name data (.elem pid) none dom
        = ⟨[.netTemplate src (entityRep data), .insertAdj "beforeend",
            .busEmit (ns ++ "template.rendered"),
            .busEmit "template.rendered", .busEmit "template.render"],
           [], none⟩ := by
    simp [render, h1, h2, adjustedRender_default, templateRendered, jsAdd]
  refine ⟨hmain, ?_, ?_⟩
  · rw [hmain]
    simp [isBusEmit]
  · intro s hs
    simp [render, h1, h2, hs, adjustedRender_default, templateRendered, jsAdd]

/-- Witness for `render_default_position_three_events` at a concrete
namespace, template registry, object data and parent element. -/
theorem render_default_position_three_events_witness :
    render (some "shop.") [("view", "view.html")] "view" (.obj 3) (.elem 0)
        none (fun _ => some 0)
      = ⟨[.netTemplate "view.html" (.obj 3), .insertAdj "beforeend",
          .busEmit "shop.template.rendered", .busEmit "template.rendered",
          .busEmit "template.render"], [], none⟩ :=
  (render_default_position_three_events "shop." "view.html" "view"
    [("view", "view.html")] (.obj 3) 0 (fun _ => some 0) rfl rfl).1

/-- C10: a Driver constructed without a namespace has `scope === null`, and
`templateRendered` emits `this.scope + 'template.rendered'`, which
JavaScript string coercion turns into the literal event name
`nulltemplate.rendered` — not `template.rendered`; so whenever the
configured namespace leaves the scope null, the namespaced completion event
differs from the global one (they could only coincide with a configured
namespace). -/
theorem null_scope_completion_event_name :
    templateRendered none
      = [.busEmit "nulltemplate.rendered", .busEmit "template.rendered",
         .busEmit "template.render"]
    ∧ "nulltemplate.rendered" ≠ "template.rendered"
    ∧ (∀ ns : String, mkScope ns = none →
        jsAdd (mkScope ns) "template.rendered" ≠ "template.rendered") := by
  refine ⟨rfl, by decide, ?_⟩
  intro ns h
  rw [h]
  decide

/-- Witness for `null_scope_completion_event_name` at the empty configured
namespace (which the constructor coerces to a null scope). -/
theorem null_scope_completion_event_name_witness :
    jsAdd (mkScope "") "template.rendered" ≠ "template.rendered" :=
  null_scope_completion_event_name.2.2 "" rfl

end Chassis
